import Mathlib

/-!
Verification of the device command execution and recording-lifecycle
subsystem of an iOS-simulator automation server.

The definitions below are a shallow embedding of the TypeScript source
(`src/index.ts`).  Pure computations (argument-vector construction, input
validation, output parsing, path resolution) become Lean functions;
fallible steps return `Option`/`Except`; the asynchronous recording-start
race is modelled by an explicit event scenario.  JavaScript strings are
modelled by Lean `String` (a list of characters); JavaScript numbers that
only ever flow through `String(x)` are modelled by `Int` together with
decimal rendering.
-/

namespace IosSimMcp

/-! Section: character and string helpers (models of the JS string primitives used). -/

/-- Model of the JS whitespace characters relevant to `String.prototype.trim`
for the ASCII output handled here. -/
def isWSChar (c : Char) : Bool :=
  c == ' ' || c == '\t' || c == '\n' || c == '\r'

/-- Model of `String.prototype.trim` on a character list: remove leading and
trailing whitespace. -/
def trimChars (cs : List Char) : List Char :=
  ((cs.dropWhile isWSChar).reverse.dropWhile isWSChar).reverse

/-- Lift of `String.prototype.trim` to `String`. -/
def jsTrim (s : String) : String :=
  String.mk (trimChars s.data)

/-- Anchored step of a substring search: `takeMatches pat cs` holds when `pat`
occurs at the very start of `cs`. -/
def takeMatches : List Char → List Char → Bool
  | [], _ => true
  | _ :: _, [] => false
  | p :: ps, c :: cs => p == c && takeMatches ps cs

/-- Model of `String.prototype.includes`: `pat` occurs somewhere in `cs`. -/
def containsSub (pat : List Char) : List Char → Bool
  | [] => takeMatches pat []
  | c :: cs => takeMatches pat (c :: cs) || containsSub pat cs

/-- Model of the JS single-character `String.prototype.split`: split a
character list at every occurrence of `sep` (used for `split("\n")`). -/
def splitOnChar (sep : Char) : List Char → List (List Char)
  | [] => [[]]
  | c :: cs =>
    let r := splitOnChar sep cs
    if c == sep then [] :: r
    else
      match r with
      | h :: t => (c :: h) :: t
      | [] => [[c]]

/-! Section: the UDID regular expression.

Source:
`/^[0-9A-Fa-f]{8}-[0-9A-Fa-f]{4}-[0-9A-Fa-f]{4}-[0-9A-Fa-f]{4}-[0-9A-Fa-f]{12}$/`.
The matcher consumes the input exactly as the anchored regex does: a fixed
number of hexadecimal characters per group, a literal dash between groups,
and end of input after the last group. -/

/-- The character class `[0-9A-Fa-f]` of `UDID_REGEX`. -/
def isHexDigit (c : Char) : Bool :=
  (('0' ≤ c) && (c ≤ '9')) || (('A' ≤ c) && (c ≤ 'F')) || (('a' ≤ c) && (c ≤ 'f'))

/-- Consume exactly `n` hexadecimal characters, returning the rest of the
input, or `none` when the input does not start with `n` hex characters. -/
def hexChars : Nat → List Char → Option (List Char)
  | 0, cs => some cs
  | _ + 1, [] => none
  | n + 1, c :: cs => if isHexDigit c then hexChars n cs else none

/-- Match a dash-separated sequence of hexadecimal groups with the given
lengths, anchored at both ends (the `^ ... $` of `UDID_REGEX`). -/
def hexGroups : List Nat → List Char → Bool
  | [], cs => cs.isEmpty
  | [n], cs =>
    match hexChars n cs with
    | some rest => rest.isEmpty
    | none => false
  | n :: n2 :: ns, cs =>
    match hexChars n cs with
    | some (c :: rest) => c == '-' && hexGroups (n2 :: ns) rest
    | _ => false

/-- Model of `UDID_REGEX.test`, the strict 8-4-4-4-12 device-identifier check. -/
def udidMatch (s : String) : Bool :=
  hexGroups [8, 4, 4, 4, 12] s.data

/-- The schema gate applied by every tool that accepts an explicit device
identifier (`z.string().regex(UDID_REGEX)`): a string passes through
unchanged exactly when it matches `UDID_REGEX`; otherwise the request is
rejected before the handler runs. -/
def validateUdid (s : String) : Option String :=
  if udidMatch s then some s else none

/-- Specification-side reading of a dash-separated hexadecimal group list, in
terms of an explicit decomposition (rather than a matcher run): the input is
a sequence of all-hexadecimal groups of the prescribed lengths joined by
single dashes. -/
def groupsShape : List Nat → List Char → Prop
  | [], cs => cs = []
  | [n], cs => cs.length = n ∧ cs.all isHexDigit = true
  | n :: n2 :: ns, cs =>
    ∃ g rest, g.length = n ∧ g.all isHexDigit = true ∧ cs = g ++ '-' :: rest ∧
      groupsShape (n2 :: ns) rest

/-- Specification-side statement of the canonical 8-4-4-4-12
grouped-hexadecimal shape of a device identifier, written as an explicit
decomposition of the string into five all-hexadecimal groups joined by
dashes. -/
def udidShape (s : String) : Prop :=
  ∃ a b c d e : List Char,
    s.data = a ++ '-' :: (b ++ '-' :: (c ++ '-' :: (d ++ '-' :: e))) ∧
    a.length = 8 ∧ b.length = 4 ∧ c.length = 4 ∧ d.length = 4 ∧ e.length = 12 ∧
    a.all isHexDigit = true ∧ b.all isHexDigit = true ∧ c.all isHexDigit = true ∧
    d.all isHexDigit = true ∧ e.all isHexDigit = true

/-! Section: process invocations.

`run` wraps `execFileAsync(cmd, args, { shell: false })`; `record_video`
uses `spawn(cmd, args)` whose Node default is also no shell.  Either way
the external program receives a discrete argument vector and no shell
parses any command string. -/

/-- One external process invocation: a program name, a discrete vector of
argument tokens, and whether a shell interprets the command. -/
structure Invocation where
  program : String
  args : List String
  shell : Bool
deriving DecidableEq

/-- Model of `run(cmd, args)`, i.e. `execFileAsync(cmd, args, { shell: false })`. -/
def run_call (cmd : String) (args : List String) : Invocation :=
  { program := cmd, args := args, shell := false }

/-- Model of `spawn(cmd, args)` with default options (no shell). -/
def spawn_call (cmd : String) (args : List String) : Invocation :=
  { program := cmd, args := args, shell := false }

/-- Result of a successful `run`: captured output streams, trimmed. -/
structure RunResult where
  stdout : String
  stderr : String
deriving DecidableEq

/-- Model of the trimming `run` performs on the raw captured streams before
returning them. -/
def runResult (rawOut rawErr : String) : RunResult :=
  { stdout := jsTrim rawOut, stderr := jsTrim rawErr }

/-! Section: argument vectors built by each tool handler. -/

/-- Arguments of `xcrun simctl list devices` (device resolver). -/
def list_devices_args : List String :=
  ["simctl", "list", "devices"]

/-- Argument vector of `ui_describe_all`. -/
def ui_describe_all_args (udid : String) : List String :=
  ["ui", "describe-all", "--udid", udid, "--json", "--nested"]

/-- Argument vector of `ui_tap`; `duration` is the optional flag value,
`x`/`y` the coordinates (reaching the vector through `String(x)`). -/
def ui_tap_args (duration : Option String) (udid : String) (x y : Int) : List String :=
  ["ui", "tap", "--udid", udid] ++
    (match duration with
      | some d => ["--duration", d]
      | none => []) ++
    ["--json", "--", toString x, toString y]

/-- Argument vector of `ui_type`. -/
def ui_type_args (udid text : String) : List String :=
  ["ui", "text", "--udid", udid, "--", text]

/-- Argument vector of `ui_swipe`; `delta` has already received its schema
default `1`, and the JS truthiness test `delta ? ... : ...` drops the flag
exactly when `delta` is zero. -/
def ui_swipe_args (udid : String) (x_start y_start x_end y_end delta : Int) : List String :=
  ["ui", "swipe", "--udid", udid] ++
    (if delta == 0 then [] else ["--delta", toString delta]) ++
    ["--json", "--", toString x_start, toString y_start, toString x_end, toString y_end]

/-- Argument vector of `ui_describe_point`. -/
def ui_describe_point_args (udid : String) (x y : Int) : List String :=
  ["ui", "describe-point", "--udid", udid, "--json", "--", toString x, toString y]

/-- Argument vector of `screenshot`; the enum-valued flags are modelled as
optional strings already validated by the schema. -/
def screenshot_args (udid : String) (ty display mask : Option String)
    (absolutePath : String) : List String :=
  ["simctl", "io", udid, "screenshot"] ++
    (match ty with
      | some t => ["--type=" ++ t]
      | none => []) ++
    (match display with
      | some d => ["--display=" ++ d]
      | none => []) ++
    (match mask with
      | some m => ["--mask=" ++ m]
      | none => []) ++
    ["--", absolutePath]

/-- Argument vector passed to `spawn` by `record_video`; `outputFile` is the
already-resolved absolute output path.  The device token is the literal
string `"booted"`. -/
def record_video_spawn_args (codec display mask : Option String) (force : Option Bool)
    (outputFile : String) : List String :=
  ["simctl", "io", "booted", "recordVideo"] ++
    (match codec with
      | some c => ["--codec=" ++ c]
      | none => []) ++
    (match display with
      | some d => ["--display=" ++ d]
      | none => []) ++
    (match mask with
      | some m => ["--mask=" ++ m]
      | none => []) ++
    (match force with
      | some true => ["--force"]
      | _ => []) ++
    ["--", outputFile]

/-- Argument vector of `stop_recording` (`pkill -SIGINT -f simctl.*recordVideo`). -/
def stop_recording_args : List String :=
  ["-SIGINT", "-f", "simctl.*recordVideo"]

/-- Argument vector of `app_launch`. -/
def app_launch_args (wait_for_debugger : Option Bool) (udid bundle_id : String) : List String :=
  ["simctl", "launch"] ++
    (match wait_for_debugger with
      | some true => ["--wait-for-debugger"]
      | _ => []) ++
    [udid, "--", bundle_id]

/-- Argument vector of `app_terminate`. -/
def app_terminate_args (udid bundle_id : String) : List String :=
  ["simctl", "terminate", udid, "--", bundle_id]

/-- Argument vector of `app_list`; `app_type` already carries its schema
default `"user"`. -/
def app_list_args (udid app_type : String) : List String :=
  (["list-apps", "--udid", udid, "--json"]) ++
    (if app_type == "system" then ["--system"]
     else if app_type == "all" then []
     else ["--user"])

/-- Argument vector of `app_install`. -/
def app_install_args (udid app_path : String) : List String :=
  ["simctl", "install", udid, "--", app_path]

/-- Argument vector of `app_uninstall`. -/
def app_uninstall_args (udid bundle_id : String) : List String :=
  ["simctl", "uninstall", udid, "--", bundle_id]

/-- First invocation of the `ui_view` pipeline (`idb ui describe-all`). -/
def ui_view_geometry_inv (udid : String) : Invocation :=
  run_call "idb" (ui_describe_all_args udid)

/-- Capture step of the `ui_view` pipeline
(`xcrun simctl io <udid> screenshot --type=png -- <rawPng>`). -/
def ui_view_capture_args (udid rawPng : String) : List String :=
  ["simctl", "io", udid, "screenshot", "--type=png", "--", rawPng]

/-- Resize/compress step of the `ui_view` pipeline: the `sips` argument
vector, built from the parsed point geometry (`-z <height> <width> ...`). -/
def ui_view_sips_args (pointHeight pointWidth : Int) (rawPng compressedJpg : String) :
    List String :=
  ["-z", toString pointHeight, toString pointWidth,
   "-s", "format", "jpeg", "-s", "formatOptions", "80",
   rawPng, "--out", compressedJpg]

/-! Section: device resolver (`getBootedDevice`). -/

/-- The character class `[-0-9A-F]` of the parenthesized-identifier pattern
`/\(([-0-9A-F]+)\)/` used when scanning a device-listing line. -/
def idChar (c : Char) : Bool :=
  c == '-' || (('0' ≤ c) && (c ≤ '9')) || (('A' ≤ c) && (c ≤ 'F'))

/-- First match of `/\(([-0-9A-F]+)\)/` in a line: scan left to right for a
`'('` followed by a nonempty run of identifier characters and a `')'`,
returning the captured run. -/
def findParenId : List Char → Option (List Char)
  | [] => none
  | c :: rest =>
    if c == '(' then
      if !(rest.takeWhile idChar).isEmpty &&
          ((rest.drop (rest.takeWhile idChar).length).head? == some ')') then
        some (rest.takeWhile idChar)
      else findParenId rest
    else findParenId rest

/-- Model of `line.split("(")[0]`: the characters before the first `'('`. -/
def beforeParen (cs : List Char) : List Char :=
  cs.takeWhile (fun c => !(c == '('))

/-- The per-line step of the booted-device scan: a line yields a
`(name, id)` pair when it contains `Booted` and a parenthesized identifier;
otherwise the loop moves on to the next line. -/
def bootedLineInfo (line : List Char) : Option (List Char × List Char) :=
  if containsSub "Booted".data line then
    match findParenId line with
    | some cap => some (trimChars (beforeParen line), cap)
    | none => none
  else none

/-- Model of `getBootedDevice`, applied to the (already trimmed) stdout and
stderr of `xcrun simctl list devices`.  Returns the device name and id, or
the thrown error message. -/
def getBootedDevice (stdout stderr : String) : Except String (String × String) :=
  if stderr == "" then
    match (splitOnChar '\n' stdout.data).findSome? bootedLineInfo with
    | some r => Except.ok (String.mk r.1, String.mk r.2)
    | none => Except.error "No booted simulator found"
  else Except.error stderr

/-! Section: output-path resolution (`ensureAbsolutePath`). -/

/-- Model of POSIX `path.isAbsolute`: the path starts with `'/'`. -/
def pathIsAbsolute (s : String) : Bool :=
  s.data.head? == some '/'

/-- Whether a path starts with the home-directory shorthand `"~/"`. -/
def tildePrefixed (s : String) : Bool :=
  s.data.take 2 == ['~', '/']

/-- Model of `filePath.slice(2)`. -/
def dropTwo (s : String) : String :=
  String.mk (s.data.drop 2)

/-- Model of Node `path.join` on two nonempty, already-normalised segments
(no trailing separator on the first, no `.`/`..` components): concatenation
with a single separator, which is how every join in the source is used. -/
def pjoin (a b : String) : String :=
  a ++ "/" ++ b

/-- Model of `ensureAbsolutePath`.  `home` is `os.homedir()`; `env` is
`process.env.IOS_SIMULATOR_MCP_DEFAULT_OUTPUT_DIR` (`none` when unset, and
the JS truthiness test also treats an empty string as unset). -/
def ensureAbsolutePath (home : String) (env : Option String) (filePath : String) : String :=
  if pathIsAbsolute filePath then filePath
  else if tildePrefixed filePath then pjoin home (dropTwo filePath)
  else
    let downloads := pjoin home "Downloads"
    let defaultDir :=
      match env with
      | some c =>
        if c == "" then downloads
        else if tildePrefixed c then pjoin home (dropTwo c)
        else c
      | none => downloads
    pjoin defaultDir filePath

/-! Section: input validation of `ui_type`.

Schema: `z.string().max(500).regex(/^[\x20-\x7E]+$/)` — at most 500
characters, at least one character, all in the printable-ASCII range. -/

/-- The character class `[\x20-\x7E]` (printable ASCII). -/
def printableAscii (c : Char) : Bool :=
  (0x20 ≤ c.toNat) && (c.toNat ≤ 0x7E)

/-- The schema check applied to the `text` parameter of `ui_type`. -/
def ui_type_textOk (text : String) : Bool :=
  (text.length ≤ 500) && !text.data.isEmpty && text.data.all printableAscii

/-- The `ui_type` invocation as gated by its schema: the external command is
built only when the text passes validation. -/
def ui_type_checked (udid text : String) : Option Invocation :=
  if ui_type_textOk text then some (run_call "idb" (ui_type_args udid text))
  else none

/-! Section: schema gating of explicit device identifiers.

Every tool that accepts an explicit `udid` declares it as
`z.string().regex(UDID_REGEX)`, so the handler (and hence any external
invocation) is reached only when `validateUdid` succeeds. -/

/-- Tool `ui_describe_all` with an explicit identifier. -/
def ui_describe_all_gated (udid : String) : Option Invocation :=
  (validateUdid udid).map (fun u => run_call "idb" (ui_describe_all_args u))

/-- Tool `ui_tap` with an explicit identifier. -/
def ui_tap_gated (duration : Option String) (udid : String) (x y : Int) : Option Invocation :=
  (validateUdid udid).map (fun u => run_call "idb" (ui_tap_args duration u x y))

/-- Tool `ui_type` with an explicit identifier. -/
def ui_type_gated (udid text : String) : Option Invocation :=
  (validateUdid udid).map (fun u => run_call "idb" (ui_type_args u text))

/-- Tool `ui_swipe` with an explicit identifier. -/
def ui_swipe_gated (udid : String) (x_start y_start x_end y_end delta : Int) :
    Option Invocation :=
  (validateUdid udid).map
    (fun u => run_call "idb" (ui_swipe_args u x_start y_start x_end y_end delta))

/-- Tool `ui_describe_point` with an explicit identifier. -/
def ui_describe_point_gated (udid : String) (x y : Int) : Option Invocation :=
  (validateUdid udid).map (fun u => run_call "idb" (ui_describe_point_args u x y))

/-- The first `ui_view` invocation with an explicit identifier. -/
def ui_view_gated (udid : String) : Option Invocation :=
  (validateUdid udid).map ui_view_geometry_inv

/-- Tool `screenshot` with an explicit identifier. -/
def screenshot_gated (udid : String) (ty display mask : Option String)
    (absolutePath : String) : Option Invocation :=
  (validateUdid udid).map
    (fun u => run_call "xcrun" (screenshot_args u ty display mask absolutePath))

/-- Tool `app_launch` with an explicit identifier. -/
def app_launch_gated (wait_for_debugger : Option Bool) (udid bundle_id : String) :
    Option Invocation :=
  (validateUdid udid).map
    (fun u => run_call "xcrun" (app_launch_args wait_for_debugger u bundle_id))

/-- Tool `app_terminate` with an explicit identifier. -/
def app_terminate_gated (udid bundle_id : String) : Option Invocation :=
  (validateUdid udid).map (fun u => run_call "xcrun" (app_terminate_args u bundle_id))

/-- Tool `app_list` with an explicit identifier. -/
def app_list_gated (udid app_type : String) : Option Invocation :=
  (validateUdid udid).map (fun u => run_call "idb" (app_list_args u app_type))

/-- Tool `app_install` with an explicit identifier. -/
def app_install_gated (udid app_path : String) : Option Invocation :=
  (validateUdid udid).map (fun u => run_call "xcrun" (app_install_args u app_path))

/-- Tool `app_uninstall` with an explicit identifier. -/
def app_uninstall_gated (udid bundle_id : String) : Option Invocation :=
  (validateUdid udid).map (fun u => run_call "xcrun" (app_uninstall_args u bundle_id))

/-! Section: result handling after `run` (stderr policy per tool). -/

/-- Tail of `ui_tap` after `run`: non-empty (trimmed) stderr is thrown even on a
zero exit status; otherwise a fixed confirmation is returned. -/
def ui_tap_handle (r : RunResult) : Except String String :=
  if r.stderr == "" then Except.ok "Tapped successfully" else Except.error r.stderr

/-- Tail of `ui_type` after `run`. -/
def ui_type_handle (r : RunResult) : Except String String :=
  if r.stderr == "" then Except.ok "Typed successfully" else Except.error r.stderr

/-- Tail of `ui_swipe` after `run`. -/
def ui_swipe_handle (r : RunResult) : Except String String :=
  if r.stderr == "" then Except.ok "Swiped successfully" else Except.error r.stderr

/-- Tail of `ui_describe_point` after `run`: stderr is checked, stdout is returned. -/
def ui_describe_point_handle (r : RunResult) : Except String String :=
  if r.stderr == "" then Except.ok r.stdout else Except.error r.stderr

/-- Tail of `ui_describe_all` after `run`: only stdout is destructured; stderr is
never inspected. -/
def ui_describe_all_handle (r : RunResult) : Except String String :=
  Except.ok r.stdout

/-- Whether an `Except` result is a success. -/
def isOkB : Except String String → Bool
  | Except.ok _ => true
  | Except.error _ => false

/-! Section: the recording-start race (`record_video`).

The handler spawns the recording process and awaits a promise that
installs exactly two callbacks: a stderr `data` listener that resolves
when a chunk contains `"Recording started"` (and otherwise appends the
chunk to a local `errorOutput` accumulator), and a 3000 ms timer that
rejects with the fixed message `"Recording process terminated
unexpectedly"` when `recordingProcess.killed` is set, and resolves
otherwise.  No exit/close listener exists, and in Node `killed` is set
only when the parent itself sent a kill signal — a child that exits on its
own leaves it `false`. -/

/-- One stderr `data` event: arrival time (ms after spawn) and payload. -/
structure StderrChunk where
  t : Nat
  data : String
deriving DecidableEq

/-- A concrete run of the start phase: the stderr chunks delivered, the
time at which the child terminated (if it did), and whether the parent had
sent it a kill signal (the Node `killed` flag read by the timer callback). -/
structure StartScenario where
  chunks : List StderrChunk
  exitTime : Option Nat
  killedByParent : Bool
deriving DecidableEq

/-- How the start promise settles. -/
inductive StartOutcome where
  | started : StartOutcome
  | failed : String → StartOutcome
deriving DecidableEq

/-- The marker the `data` listener looks for. -/
def recordingMarker : String := "Recording started"

/-- Whether a chunk contains the marker (`message.includes(...)`). -/
def chunkHasMarker (c : StderrChunk) : Bool :=
  containsSub recordingMarker.data c.data.data

/-- Whether some chunk delivered before the 3000 ms timer contains the
marker. -/
def markerSeen (sc : StartScenario) : Bool :=
  sc.chunks.any (fun c => (c.t < 3000) && chunkHasMarker c)

/-- How the start promise settles on a given scenario: the marker resolves
it; otherwise the timer fires and rejects exactly when `killed` is set.
The child's own termination time is invisible to both callbacks. -/
def startSettles (sc : StartScenario) : StartOutcome :=
  if markerSeen sc then StartOutcome.started
  else if sc.killedByParent then
    StartOutcome.failed "Recording process terminated unexpectedly"
  else StartOutcome.started

/-- The `errorOutput` accumulator at the time the timer fires: every
non-marker chunk delivered before it, concatenated.  (The source computes
this value but never reads it.) -/
def capturedStderr (sc : StartScenario) : String :=
  (sc.chunks.filter (fun c => (c.t < 3000) && !chunkHasMarker c)).foldl
    (fun acc c => acc ++ c.data) ""

/-- A concrete start scenario in which the recording process writes an error
to stderr at 100 ms and terminates on its own at 200 ms, well before the
3-second timeout, without ever emitting the marker; the parent sent no kill
signal, so the Node `killed` flag stays `false`. -/
def earlyExitScenario : StartScenario :=
  { chunks := [{ t := 100, data := "simctl io failed" }],
    exitTime := some 200,
    killedByParent := false }

/-! Section: the `ui_view` pipeline. -/

/-- The parsed `frame` of the root accessibility element. -/
structure Frame where
  width : Int
  height : Int
deriving DecidableEq

/-- One parsed element of the `describe-all` JSON array; only the optional
`frame` field is consulted. -/
structure UIElem where
  frame : Option Frame
deriving DecidableEq

/-- The geometry-dependent tail of `ui_view`: from the parsed JSON array,
either fail with the geometry error — before any capture or resize
invocation exists — or produce the capture and resize invocations, the
resize built from the root frame's height and width. -/
def ui_view_plan (udid : String) (uiData : List UIElem) (rawPng compressedJpg : String) :
    Except String (Invocation × Invocation) :=
  match uiData.head? with
  | none => Except.error "Could not determine screen dimensions"
  | some el =>
    match el.frame with
    | none => Except.error "Could not determine screen dimensions"
    | some f =>
      Except.ok
        (run_call "xcrun" (ui_view_capture_args udid rawPng),
         run_call "sips" (ui_view_sips_args f.height f.width rawPng compressedJpg))

/-! Section: helper lemmas. -/

theorem hexChars_some_iff (n : Nat) (cs r : List Char) :
    hexChars n cs = some r ↔ ∃ g, g.length = n ∧ g.all isHexDigit = true ∧ cs = g ++ r := by
  induction n generalizing cs with
  | zero =>
    constructor
    · intro h
      refine ⟨[], rfl, rfl, ?_⟩
      have hcr : cs = r := by simpa [hexChars] using h
      simpa using hcr
    · rintro ⟨g, hg, -, rfl⟩
      have hg' : g = [] := List.length_eq_zero.mp hg
      subst hg'
      simp [hexChars]
  | succ n ih =>
    cases cs with
    | nil =>
      constructor
      · intro h
        simp [hexChars] at h
      · rintro ⟨g, hg, -, h⟩
        cases g with
        | nil => simp at hg
        | cons a as => simp at h
    | cons c cs' =>
      by_cases hc : isHexDigit c = true
      · constructor
        · intro h
          rw [hexChars, if_pos hc] at h
          obtain ⟨g, hg, hall, hcs⟩ := (ih cs').mp h
          exact ⟨c :: g, by simp [hg], by simp [List.all_cons, hc, hall], by simp [hcs]⟩
        · rintro ⟨g, hg, hall, heq⟩
          cases g with
          | nil => simp at hg
          | cons a as =>
            have hca : c = a ∧ cs' = as ++ r := by simpa using heq
            obtain ⟨rfl, h2⟩ := hca
            rw [hexChars, if_pos hc]
            refine (ih cs').mpr ⟨as, by simpa using hg, ?_, h2⟩
            rw [List.all_cons, Bool.and_eq_true] at hall
            exact hall.2
      · constructor
        · intro h
          rw [hexChars, if_neg hc] at h
          exact absurd h (by simp)
        · rintro ⟨g, hg, hall, heq⟩
          cases g with
          | nil => simp at hg
          | cons a as =>
            have hca : c = a ∧ cs' = as ++ r := by simpa using heq
            obtain ⟨rfl, -⟩ := hca
            rw [List.all_cons, Bool.and_eq_true] at hall
            exact absurd hall.1 hc

theorem hexGroups_iff (ns : List Nat) (cs : List Char) :
    hexGroups ns cs = true ↔ groupsShape ns cs := by
  induction ns generalizing cs with
  | nil => simp [hexGroups, groupsShape]
  | cons n ns ih =>
    cases ns with
    | nil =>
      constructor
      · intro h
        rw [hexGroups] at h
        cases hh : hexChars n cs with
        | none => rw [hh] at h; exact absurd h (by simp)
        | some rest =>
          rw [hh] at h
          have hrest : rest = [] := by simpa using h
          subst hrest
          obtain ⟨g, hg, hall, hcs⟩ := (hexChars_some_iff n cs []).mp hh
          rw [List.append_nil] at hcs
          subst hcs
          exact ⟨hg, hall⟩
      · intro h
        obtain ⟨hlen, hall⟩ : cs.length = n ∧ cs.all isHexDigit = true := h
        have hh : hexChars n cs = some [] :=
          (hexChars_some_iff n cs []).mpr ⟨cs, hlen, hall, by simp⟩
        rw [hexGroups, hh]
        rfl
    | cons n2 ns2 =>
      constructor
      · intro h
        rw [hexGroups] at h
        cases hh : hexChars n cs with
        | none => rw [hh] at h; exact absurd h (by simp)
        | some rest =>
          rw [hh] at h
          cases rest with
          | nil => exact absurd h (by simp)
          | cons r0 rest2 =>
            have h2 : (r0 == '-') = true ∧ hexGroups (n2 :: ns2) rest2 = true := by
              simpa [Bool.and_eq_true] using h
            have hr0 : r0 = '-' := by simpa using h2.1
            subst hr0
            obtain ⟨g, hg, hall, hcs⟩ := (hexChars_some_iff n cs ('-' :: rest2)).mp hh
            exact ⟨g, rest2, hg, hall, hcs, (ih rest2).mp h2.2⟩
      · rintro ⟨g, rest, hg, hall, rfl, hrec⟩
        have hh : hexChars n (g ++ '-' :: rest) = some ('-' :: rest) :=
          (hexChars_some_iff n (g ++ '-' :: rest) ('-' :: rest)).mpr ⟨g, hg, hall, rfl⟩
        rw [hexGroups, hh]
        simp [Bool.and_eq_true]
        exact (ih rest).mpr hrec

theorem udidMatch_iff (s : String) : udidMatch s = true ↔ udidShape s := by
  rw [udidMatch, hexGroups_iff]
  constructor
  · intro h
    obtain ⟨a, r1, ha, haall, hcs, h1⟩ := h
    obtain ⟨b, r2, hb, hball, hr1, h2⟩ := h1
    obtain ⟨c, r3, hc, hcall, hr2, h3⟩ := h2
    obtain ⟨d, r4, hd, hdall, hr3, h4⟩ := h3
    obtain ⟨he, heall⟩ : r4.length = 12 ∧ r4.all isHexDigit = true := h4
    refine ⟨a, b, c, d, r4, ?_, ha, hb, hc, hd, he, haall, hball, hcall, hdall, heall⟩
    rw [hcs, hr1, hr2, hr3]
  · rintro ⟨a, b, c, d, e, hs, ha, hb, hc, hd, he, haall, hball, hcall, hdall, heall⟩
    exact ⟨a, _, ha, haall, hs,
           b, _, hb, hball, rfl,
           c, _, hc, hcall, rfl,
           d, _, hd, hdall, rfl,
           he, heall⟩

/-- Claim C3: a string offered as an explicit device identifier passes
validation exactly when it has the canonical 8-4-4-4-12 grouped-hexadecimal
shape; a string without that shape is rejected by the schema gate, so no
tool handler runs and the malformed identifier reaches no external command
of any operation. -/
theorem c3_udid_validation (s : String) :
    (udidShape s → validateUdid s = some s) ∧
    (¬ udidShape s →
      validateUdid s = none ∧
      ui_describe_all_gated s = none ∧
      (∀ d x y, ui_tap_gated d s x y = none) ∧
      (∀ t, ui_type_gated s t = none) ∧
      (∀ x1 y1 x2 y2 dl, ui_swipe_gated s x1 y1 x2 y2 dl = none) ∧
      (∀ x y, ui_describe_point_gated s x y = none) ∧
      ui_view_gated s = none ∧
      (∀ ty dp mk p, screenshot_gated s ty dp mk p = none) ∧
      (∀ w b, app_launch_gated w s b = none) ∧
      (∀ b, app_terminate_gated s b = none) ∧
      (∀ a, app_list_gated s a = none) ∧
      (∀ p, app_install_gated s p = none) ∧
      (∀ b, app_uninstall_gated s b = none)) := by
  constructor
  · intro h
    have hm : udidMatch s = true := (udidMatch_iff s).mpr h
    simp [validateUdid, hm]
  · intro h
    have hm : udidMatch s = false := by
      cases hmm : udidMatch s
      · rfl
      · exact absurd ((udidMatch_iff s).mp hmm) h
    have hv : validateUdid s = none := by simp [validateUdid, hm]
    refine ⟨hv, ?_, ?_, ?_, ?_, ?_, ?_, ?_, ?_, ?_, ?_, ?_, ?_⟩
    · simp [ui_describe_all_gated, hv]
    · intro d x y; simp [ui_tap_gated, hv]
    · intro t; simp [ui_type_gated, hv]
    · intro x1 y1 x2 y2 dl; simp [ui_swipe_gated, hv]
    · intro x y; simp [ui_describe_point_gated, hv]
    · simp [ui_view_gated, hv]
    · intro ty dp mk p; simp [screenshot_gated, hv]
    · intro w b; simp [app_launch_gated, hv]
    · intro b; simp [app_terminate_gated, hv]
    · intro a; simp [app_list_gated, hv]
    · intro p; simp [app_install_gated, hv]
    · intro b; simp [app_uninstall_gated, hv]

/-- Witness for C3: the canonical example identifier is accepted, and a
malformed identifier leaves `ui_tap` with no invocation at all. -/
theorem c3_udid_validation_witness :
    validateUdid "37A360EC-75F9-4AEC-8EFA-10F4A58D8CCA" =
      some "37A360EC-75F9-4AEC-8EFA-10F4A58D8CCA" ∧
    ui_tap_gated none "not-a-udid" 10 20 = none := by
  constructor
  · exact (c3_udid_validation _).1
      ((udidMatch_iff "37A360EC-75F9-4AEC-8EFA-10F4A58D8CCA").mp (by decide))
  · refine (((c3_udid_validation "not-a-udid").2 ?_).2.2.1) none 10 20
    intro hsh
    have h1 := (udidMatch_iff "not-a-udid").mpr hsh
    have h2 : udidMatch "not-a-udid" = false := by decide
    rw [h2] at h1
    exact Bool.false_ne_true h1

/-! Section: helper lemmas for the booted-device scan. -/

theorem takeWhile_middle {α : Type} {p : α → Bool} (xs : List α) (y : α) (ys : List α)
    (hxs : ∀ a ∈ xs, p a = true) (hy : p y = false) :
    (xs ++ y :: ys).takeWhile p = xs := by
  induction xs with
  | nil => simp [List.takeWhile_cons, hy]
  | cons a as ih =>
    have ha : p a = true := hxs a (by simp)
    rw [List.cons_append, List.takeWhile_cons, ha, ih (fun b hb => hxs b (by simp [hb]))]
    simp

theorem findParenId_middle (nm cap rest : List Char)
    (hnm : ∀ c ∈ nm, (c == '(') = false)
    (hcap : cap ≠ []) (hcapOk : ∀ c ∈ cap, idChar c = true) :
    findParenId (nm ++ '(' :: (cap ++ ')' :: rest)) = some cap := by
  induction nm with
  | nil =>
    rw [List.nil_append, findParenId]
    have ht : (cap ++ ')' :: rest).takeWhile idChar = cap :=
      takeWhile_middle cap ')' rest hcapOk (by decide)
    have hd : (cap ++ ')' :: rest).drop cap.length = ')' :: rest :=
      List.drop_left cap (')' :: rest)
    rw [if_pos (by decide)]
    rw [ht, hd]
    have hne : cap.isEmpty = false := by
      cases cap with
      | nil => exact absurd rfl hcap
      | cons c cs => rfl
    rw [if_pos (by simp [hne])]
  | cons c0 nm' ih =>
    have hc0 : (c0 == '(') = false := hnm c0 (by simp)
    rw [List.cons_append, findParenId, if_neg (by simp [hc0])]
    exact ih (fun c hc => hnm c (by simp [hc]))

theorem bootedLineInfo_middle (nm cap rest : List Char)
    (hline : containsSub "Booted".data (nm ++ '(' :: (cap ++ ')' :: rest)) = true)
    (hnm : ∀ c ∈ nm, (c == '(') = false)
    (hcap : cap ≠ []) (hcapOk : ∀ c ∈ cap, idChar c = true) :
    bootedLineInfo (nm ++ '(' :: (cap ++ ')' :: rest)) = some (trimChars nm, cap) := by
  have hfp := findParenId_middle nm cap rest hnm hcap hcapOk
  have hbp : beforeParen (nm ++ '(' :: (cap ++ ')' :: rest)) = nm := by
    rw [beforeParen]
    exact takeWhile_middle nm '(' _ (fun c hc => by simp [hnm c hc]) (by decide)
  simp [bootedLineInfo, hline, hfp, hbp]

theorem findSome_append_none {α β : Type} (f : α → Option β) {pre rest : List α}
    (h : ∀ x ∈ pre, f x = none) : (pre ++ rest).findSome? f = rest.findSome? f := by
  induction pre with
  | nil => rfl
  | cons a as ih =>
    have ha : f a = none := h a (by simp)
    rw [List.cons_append, List.findSome?_cons, ha]
    exact ih (fun x hx => h x (by simp [hx]))

/-- Counterexample for C5 as stated: when the listing command's stderr is
non-empty, `getBootedDevice` fails with the stderr text itself, not with the
no-booted-device error the claim names for that case. -/
theorem c5_counterexample :
    getBootedDevice "irrelevant" "simctl: command failed" =
      Except.error "simctl: command failed" ∧
    "simctl: command failed" ≠ "No booted simulator found" :=
  ⟨rfl, by decide⟩

/-- Claim C5 (amended): if the split device-listing output has exactly one
line containing `Booted` — a line of the form `name(id)tail` whose name part
has no parenthesis and whose parenthesized identifier is a nonempty run of
identifier characters — then `getBootedDevice` returns that identifier and
the trimmed name preceding the first parenthesis.  If no line contains
`Booted`, it fails with the no-booted-device error; if stderr is non-empty,
it fails with an error carrying the stderr text (not the no-booted-device
error). -/
theorem c5_get_booted_device (stdout : String) (pre post : List (List Char))
    (nm cap rest : List Char)
    (hsplit : splitOnChar '\n' stdout.data =
      pre ++ (nm ++ '(' :: (cap ++ ')' :: rest)) :: post)
    (hpre : ∀ l ∈ pre, containsSub "Booted".data l = false)
    (hline : containsSub "Booted".data (nm ++ '(' :: (cap ++ ')' :: rest)) = true)
    (hnm : ∀ c ∈ nm, (c == '(') = false)
    (hcap : cap ≠ []) (hcapOk : ∀ c ∈ cap, idChar c = true) :
    getBootedDevice stdout "" =
      Except.ok (String.mk (trimChars nm), String.mk cap) ∧
    (∀ out : String,
      (∀ l ∈ splitOnChar '\n' out.data, containsSub "Booted".data l = false) →
      getBootedDevice out "" = Except.error "No booted simulator found") ∧
    (∀ out err : String, err ≠ "" → getBootedDevice out err = Except.error err) := by
  refine ⟨?_, ?_, ?_⟩
  · have h1 : ∀ l ∈ pre, bootedLineInfo l = none := by
      intro l hl
      simp [bootedLineInfo, hpre l hl]
    have h2 := bootedLineInfo_middle nm cap rest hline hnm hcap hcapOk
    rw [getBootedDevice, if_pos (show (("" == "") = true) from rfl), hsplit,
        findSome_append_none bootedLineInfo h1, List.findSome?_cons, h2]
  · intro out hout
    have h2 : (splitOnChar '\n' out.data).findSome? bootedLineInfo = none := by
      rw [List.findSome?_eq_none_iff]
      intro l hl
      simp [bootedLineInfo, hout l hl]
    rw [getBootedDevice, if_pos (show (("" == "") = true) from rfl), h2]
  · intro out err herr
    rw [getBootedDevice, if_neg (by simpa using herr)]

/-- Witness for C5: a concrete three-line listing with one `Booted` line
resolves to its name and identifier; a listing with no `Booted` line fails;
a non-empty stderr is propagated. -/
theorem c5_get_booted_device_witness :
    getBootedDevice
      "== Devices ==\niPhone 15 (37A360EC-75F9-4AEC-8EFA-10F4A58D8CCA) (Booted)\nother" "" =
      Except.ok ("iPhone 15", "37A360EC-75F9-4AEC-8EFA-10F4A58D8CCA") ∧
    getBootedDevice "no devices are booted" "" =
      Except.error "No booted simulator found" ∧
    getBootedDevice "x" "oops" = Except.error "oops" := by
  have h := c5_get_booted_device
    "== Devices ==\niPhone 15 (37A360EC-75F9-4AEC-8EFA-10F4A58D8CCA) (Booted)\nother"
    ["== Devices ==".data] ["other".data]
    "iPhone 15 ".data "37A360EC-75F9-4AEC-8EFA-10F4A58D8CCA".data " (Booted)".data
    (by decide) (by decide) (by decide) (by decide) (by decide) (by decide)
  exact ⟨h.1, h.2.1 "no devices are booted" (by decide), h.2.2 "x" "oops" (by decide)⟩

/-- Counterexample for C4 as stated: in `earlyExitScenario` the recording
process terminates at 200 ms — before the marker is seen and before the
3-second timeout — yet `start` resolves as started, because the timer
callback only consults the Node `killed` flag (set solely by a parent-sent
kill) and the accumulated stderr is never attached to any error. -/
theorem c4_counterexample :
    earlyExitScenario.exitTime = some 200 ∧
    markerSeen earlyExitScenario = false ∧
    capturedStderr earlyExitScenario = "simctl io failed" ∧
    startSettles earlyExitScenario = StartOutcome.started := by
  decide

/-- Claim C4 (amended): if the spawned process emits `Recording started` on
its error stream before the 3-second timeout, `start` resolves as confirmed.
Otherwise the outcome is decided at the timeout by the `killed` flag alone:
if the parent had killed the process, `start` rejects with the fixed message
`Recording process terminated unexpectedly` (never carrying the captured
stderr), and otherwise it resolves as started.  The process's own
termination time has no effect on the outcome, so an early self-exit does
not fail the attempt. -/
theorem c4_recording_start (sc : StartScenario) :
    (markerSeen sc = true → startSettles sc = StartOutcome.started) ∧
    (markerSeen sc = false → sc.killedByParent = true →
      startSettles sc = StartOutcome.failed "Recording process terminated unexpectedly") ∧
    (markerSeen sc = false → sc.killedByParent = false →
      startSettles sc = StartOutcome.started) ∧
    (∀ chunks exitA exitB killed,
      startSettles { chunks := chunks, exitTime := exitA, killedByParent := killed } =
      startSettles { chunks := chunks, exitTime := exitB, killedByParent := killed }) ∧
    (∀ msg, startSettles sc = StartOutcome.failed msg →
      msg = "Recording process terminated unexpectedly") := by
  refine ⟨?_, ?_, ?_, ?_, ?_⟩
  · intro h
    simp [startSettles, h]
  · intro h hk
    rw [startSettles, if_neg (by simp [h]), if_pos hk]
  · intro h hk
    rw [startSettles, if_neg (by simp [h]), if_neg (by simp [hk])]
  · intro chunks exitA exitB killed
    simp [startSettles, markerSeen]
  · intro msg h
    by_cases hm : markerSeen sc = true
    · simp [startSettles, hm] at h
    · rw [startSettles] at h
      rw [if_neg (by simpa using hm)] at h
      by_cases hk : sc.killedByParent = true
      · rw [if_pos hk] at h
        exact (StartOutcome.failed.injEq _ _).mp h.symm
      · rw [if_neg hk] at h
        exact absurd h (by simp)

/-- Witness for C4 (amended): the marker seen at 50 ms resolves the start;
with no marker and a parent-killed process the fixed rejection is produced;
with no marker and no kill the start resolves. -/
theorem c4_recording_start_witness :
    startSettles { chunks := [{ t := 50, data := "Recording started" }],
                   exitTime := none, killedByParent := false } =
      StartOutcome.started ∧
    startSettles { chunks := [], exitTime := none, killedByParent := true } =
      StartOutcome.failed "Recording process terminated unexpectedly" ∧
    startSettles { chunks := [], exitTime := some 10, killedByParent := false } =
      StartOutcome.started := by
  refine ⟨?_, ?_, ?_⟩
  · exact (c4_recording_start _).1 (by decide)
  · exact (c4_recording_start _).2.1 (by decide) rfl
  · exact (c4_recording_start _).2.2.1 (by decide) rfl

/-- Claim C6: with no override, a relative output path lands in the
`Downloads` directory under the home directory; a `~/`-prefixed path is
expanded against the home directory regardless of any override; an absolute
path is returned unchanged. -/
theorem c6_ensure_absolute_path (home p : String) :
    (pathIsAbsolute p = false → tildePrefixed p = false →
      ensureAbsolutePath home none p = home ++ "/Downloads/" ++ p) ∧
    (∀ env rest, p = "~/" ++ rest →
      ensureAbsolutePath home env p = home ++ "/" ++ rest) ∧
    (∀ env, pathIsAbsolute p = true → ensureAbsolutePath home env p = p) := by
  refine ⟨?_, ?_, ?_⟩
  · intro h1 h2
    rw [ensureAbsolutePath, if_neg (by simp [h1]), if_neg (by simp [h2])]
    show pjoin (pjoin home "Downloads") p = home ++ "/Downloads/" ++ p
    rw [pjoin, pjoin, String.append_assoc home "/" "Downloads",
        show ("/" : String) ++ "Downloads" = "/Downloads" by decide,
        String.append_assoc home "/Downloads" "/",
        show ("/Downloads" : String) ++ "/" = "/Downloads/" by decide]
  · rintro env rest rfl
    have habs : pathIsAbsolute ("~/" ++ rest) = false := by
      rw [pathIsAbsolute]
      have : ("~/" ++ rest).data = '~' :: '/' :: rest.data := by
        rw [String.data_append]
        rfl
      rw [this]
      rfl
    have htld : tildePrefixed ("~/" ++ rest) = true := by
      rw [tildePrefixed]
      have : ("~/" ++ rest).data = '~' :: '/' :: rest.data := by
        rw [String.data_append]
        rfl
      rw [this]
      rfl
    rw [ensureAbsolutePath, if_neg (by simp [habs]), if_pos (by simp [htld])]
    have hdrop : dropTwo ("~/" ++ rest) = rest := by
      rw [dropTwo]
      have : ("~/" ++ rest).data = '~' :: '/' :: rest.data := by
        rw [String.data_append]
        rfl
      rw [this]
      rfl
    rw [hdrop]
    rfl
  · intro env h
    rw [ensureAbsolutePath, if_pos (by simp [h])]

/-- Witness for C6: the three concrete examples of the claim. -/
theorem c6_ensure_absolute_path_witness :
    ensureAbsolutePath "/Users/tester" none "foo.png" =
      "/Users/tester/Downloads/foo.png" ∧
    ensureAbsolutePath "/Users/tester" (some "/custom/dir") "~/custom/foo.png" =
      "/Users/tester/custom/foo.png" ∧
    ensureAbsolutePath "/Users/tester" none "/tmp/shot.png" = "/tmp/shot.png" := by
  refine ⟨?_, ?_, ?_⟩
  · rw [(c6_ensure_absolute_path "/Users/tester" "foo.png").1 (by decide) (by decide)]
    decide
  · rw [(c6_ensure_absolute_path "/Users/tester" "~/custom/foo.png").2.1
      (some "/custom/dir") "custom/foo.png" (by decide)]
    decide
  · exact (c6_ensure_absolute_path "/Users/tester" "/tmp/shot.png").2.2 none (by decide)

/-- Claim C7: when the parsed geometry yields a root frame of width `W` and
height `H`, the resize (`sips`) argument vector carries exactly those two
numeric values in height-then-width order after `-z`; when the root frame is
absent, the pipeline fails with the geometry error and neither a capture nor
a resize invocation exists. -/
theorem c7_view_pipeline (udid : String) (uiData : List UIElem) (W H : Int)
    (raw comp : String) :
    (uiData.head? = some { frame := some { width := W, height := H } } →
      ui_view_plan udid uiData raw comp =
        Except.ok
          (run_call "xcrun" ["simctl", "io", udid, "screenshot", "--type=png", "--", raw],
           run_call "sips"
             ["-z", toString H, toString W, "-s", "format", "jpeg", "-s",
              "formatOptions", "80", raw, "--out", comp])) ∧
    (uiData.head? = none →
      ui_view_plan udid uiData raw comp =
        Except.error "Could not determine screen dimensions") ∧
    (∀ el, uiData.head? = some el → el.frame = none →
      ui_view_plan udid uiData raw comp =
        Except.error "Could not determine screen dimensions") := by
  refine ⟨?_, ?_, ?_⟩
  · intro h
    rw [ui_view_plan, h]
    rfl
  · intro h
    rw [ui_view_plan, h]
  · intro el h1 h2
    rw [ui_view_plan, h1]
    simp [h2]

/-- Witness for C7: with a parsed frame of width 390 and height 844 the
`sips` vector is `-z 844 390 ...`; with no parsable frame the pipeline
reports the geometry error. -/
theorem c7_view_pipeline_witness :
    ui_view_plan "37A360EC-75F9-4AEC-8EFA-10F4A58D8CCA"
        [{ frame := some { width := 390, height := 844 } }] "/tmp/raw.png" "/tmp/out.jpg" =
      Except.ok
        (run_call "xcrun"
          ["simctl", "io", "37A360EC-75F9-4AEC-8EFA-10F4A58D8CCA", "screenshot",
           "--type=png", "--", "/tmp/raw.png"],
         run_call "sips"
          ["-z", "844", "390", "-s", "format", "jpeg", "-s", "formatOptions", "80",
           "/tmp/raw.png", "--out", "/tmp/out.jpg"]) ∧
    ui_view_plan "37A360EC-75F9-4AEC-8EFA-10F4A58D8CCA" [{ frame := none }]
        "/tmp/raw.png" "/tmp/out.jpg" =
      Except.error "Could not determine screen dimensions" := by
  constructor
  · rw [(c7_view_pipeline "37A360EC-75F9-4AEC-8EFA-10F4A58D8CCA"
        [{ frame := some { width := 390, height := 844 } }] 390 844
        "/tmp/raw.png" "/tmp/out.jpg").1 rfl]
    rfl
  · exact (c7_view_pipeline "37A360EC-75F9-4AEC-8EFA-10F4A58D8CCA" [{ frame := none }]
      0 0 "/tmp/raw.png" "/tmp/out.jpg").2.2 { frame := none } rfl rfl

/-- Claim C8: typing input containing a character outside printable ASCII,
or empty, or longer than 500 characters is rejected by the schema before any
external invocation; valid text is passed through unmodified as the single
token after the `--` separator. -/
theorem c8_type_text_validation (udid text : String) :
    ((∃ c ∈ text.data, printableAscii c = false) ∨ text = "" ∨ 500 < text.length →
      ui_type_checked udid text = none) ∧
    (text ≠ "" → text.data.all printableAscii = true → text.length ≤ 500 →
      ui_type_checked udid text =
        some (run_call "idb" ["ui", "text", "--udid", udid, "--", text])) := by
  constructor
  · intro h
    have hbad : ui_type_textOk text = false := by
      rcases h with ⟨c, hc, hcp⟩ | h | h
      · have : text.data.all printableAscii = false := by
          cases hall : text.data.all printableAscii
          · rfl
          · rw [List.all_eq_true] at hall
            exact absurd (hall c hc) (by simp [hcp])
        simp [ui_type_textOk, this]
      · subst h
        rfl
      · have : ¬(text.length ≤ 500) := Nat.not_le.mpr h
        simp [ui_type_textOk, this]
    simp [ui_type_checked, hbad]
  · intro h1 h2 h3
    have hne : text.data.isEmpty = false := by
      cases hd : text.data with
      | nil => exact absurd (String.ext (by simp [hd])) h1
      | cons c cs => rfl
    have hok : ui_type_textOk text = true := by
      simp [ui_type_textOk, h2, h3, hne]
    simp [ui_type_checked, hok, ui_type_args]

/-- Witness for C8: a non-printable character, the empty string and an
overlong string are rejected; a plain ASCII string passes through as the
final token. -/
theorem c8_type_text_validation_witness :
    ui_type_checked "37A360EC-75F9-4AEC-8EFA-10F4A58D8CCA" "tab\there" = none ∧
    ui_type_checked "37A360EC-75F9-4AEC-8EFA-10F4A58D8CCA" "" = none ∧
    ui_type_checked "37A360EC-75F9-4AEC-8EFA-10F4A58D8CCA" "hello world" =
      some (run_call "idb"
        ["ui", "text", "--udid", "37A360EC-75F9-4AEC-8EFA-10F4A58D8CCA", "--",
         "hello world"]) := by
  refine ⟨?_, ?_, ?_⟩
  · exact (c8_type_text_validation _ _).1 (Or.inl ⟨'\t', by decide, by decide⟩)
  · exact (c8_type_text_validation _ _).1 (Or.inr (Or.inl rfl))
  · exact (c8_type_text_validation _ _).2 (by decide) (by decide) (by decide)

/-- Claim C1: for every operation and every input, the external program is
invoked with its arguments as a discrete vector of string tokens and shell
interpretation disabled — the device listing, every `idb` UI operation, the
three `ui_view` steps, `screenshot`, the spawned recorder, the stop signal,
and every app-lifecycle operation.  Because no invocation enables a shell,
no shell-parsed command string exists for a user-controlled value to be
concatenated into. -/
theorem c1_no_shell (udid text bundle_id app_path app_type absPath outFile raw comp : String)
    (duration : Option String) (x y x2 y2 delta : Int)
    (ty display mask codec : Option String) (force wfd : Option Bool) :
    (run_call "xcrun" list_devices_args).shell = false ∧
    (run_call "idb" (ui_describe_all_args udid)).shell = false ∧
    (run_call "idb" (ui_tap_args duration udid x y)).shell = false ∧
    (run_call "idb" (ui_type_args udid text)).shell = false ∧
    (run_call "idb" (ui_swipe_args udid x y x2 y2 delta)).shell = false ∧
    (run_call "idb" (ui_describe_point_args udid x y)).shell = false ∧
    (ui_view_geometry_inv udid).shell = false ∧
    (run_call "xcrun" (ui_view_capture_args udid raw)).shell = false ∧
    (run_call "sips" (ui_view_sips_args y x raw comp)).shell = false ∧
    (run_call "xcrun" (screenshot_args udid ty display mask absPath)).shell = false ∧
    (spawn_call "xcrun" (record_video_spawn_args codec display mask force outFile)).shell
      = false ∧
    (run_call "pkill" stop_recording_args).shell = false ∧
    (run_call "xcrun" (app_launch_args wfd udid bundle_id)).shell = false ∧
    (run_call "xcrun" (app_terminate_args udid bundle_id)).shell = false ∧
    (run_call "idb" (app_list_args udid app_type)).shell = false ∧
    (run_call "xcrun" (app_install_args udid app_path)).shell = false ∧
    (run_call "xcrun" (app_uninstall_args udid bundle_id)).shell = false :=
  ⟨rfl, rfl, rfl, rfl, rfl, rfl, rfl, rfl, rfl, rfl, rfl, rfl, rfl, rfl, rfl, rfl, rfl⟩

/-- Claim C2: for every operation accepting a positional user-supplied value
(coordinates, typed text, bundle identifiers, file paths), the argument
vector decomposes as a flag part followed by a literal `--` token placed
immediately before the first positional user value. -/
theorem c2_separator_before_positionals
    (udid text bundle_id app_path absPath outFile : String)
    (duration : Option String) (x y x2 y2 delta : Int)
    (ty display mask codec : Option String) (force wfd : Option Bool) :
    (∃ pre, ui_tap_args duration udid x y = pre ++ ["--", toString x, toString y]) ∧
    (∃ pre, ui_type_args udid text = pre ++ ["--", text]) ∧
    (∃ pre, ui_swipe_args udid x y x2 y2 delta =
      pre ++ ["--", toString x, toString y, toString x2, toString y2]) ∧
    (∃ pre, ui_describe_point_args udid x y = pre ++ ["--", toString x, toString y]) ∧
    (∃ pre, screenshot_args udid ty display mask absPath = pre ++ ["--", absPath]) ∧
    (∃ pre, record_video_spawn_args codec display mask force outFile =
      pre ++ ["--", outFile]) ∧
    (∃ pre, app_launch_args wfd udid bundle_id = pre ++ ["--", bundle_id]) ∧
    (∃ pre, app_terminate_args udid bundle_id = pre ++ ["--", bundle_id]) ∧
    (∃ pre, app_install_args udid app_path = pre ++ ["--", app_path]) ∧
    (∃ pre, app_uninstall_args udid bundle_id = pre ++ ["--", bundle_id]) := by
  refine ⟨⟨["ui", "tap", "--udid", udid] ++
      (match duration with
        | some d => ["--duration", d]
        | none => []) ++ ["--json"], ?_⟩,
    ⟨["ui", "text", "--udid", udid], ?_⟩,
    ⟨["ui", "swipe", "--udid", udid] ++
      (if delta == 0 then [] else ["--delta", toString delta]) ++ ["--json"], ?_⟩,
    ⟨["ui", "describe-point", "--udid", udid, "--json"], ?_⟩,
    ⟨["simctl", "io", udid, "screenshot"] ++
      (match ty with
        | some t => ["--type=" ++ t]
        | none => []) ++
      (match display with
        | some d => ["--display=" ++ d]
        | none => []) ++
      (match mask with
        | some m => ["--mask=" ++ m]
        | none => []), ?_⟩,
    ⟨["simctl", "io", "booted", "recordVideo"] ++
      (match codec with
        | some c => ["--codec=" ++ c]
        | none => []) ++
      (match display with
        | some d => ["--display=" ++ d]
        | none => []) ++
      (match mask with
        | some m => ["--mask=" ++ m]
        | none => []) ++
      (match force with
        | some true => ["--force"]
        | _ => []), ?_⟩,
    ⟨["simctl", "launch"] ++
      (match wfd with
        | some true => ["--wait-for-debugger"]
        | _ => []) ++ [udid], ?_⟩,
    ⟨["simctl", "terminate", udid], ?_⟩,
    ⟨["simctl", "install", udid], ?_⟩,
    ⟨["simctl", "uninstall", udid], ?_⟩⟩
  · simp [ui_tap_args, List.append_assoc]
  · simp [ui_type_args]
  · simp [ui_swipe_args, List.append_assoc]
  · simp [ui_describe_point_args]
  · simp [screenshot_args, List.append_assoc]
  · simp [record_video_spawn_args, List.append_assoc]
  · simp [app_launch_args, List.append_assoc]
  · simp [app_terminate_args]
  · simp [app_install_args]
  · simp [app_uninstall_args]

/-- Claim C9: the spawned recording command always targets the literal
device token `booted` (third argument slot), for every combination of the
parameters `record_video` accepts; the builder takes no device identifier at
all, so a recording cannot be directed at an explicitly chosen device and
the device resolver is never consulted. -/
theorem c9_record_video_booted (codec display mask : Option String) (force : Option Bool)
    (outputFile : String) :
    (record_video_spawn_args codec display mask force outputFile).take 4 =
      ["simctl", "io", "booted", "recordVideo"] ∧
    (record_video_spawn_args codec display mask force outputFile)[2]? = some "booted" :=
  ⟨rfl, rfl⟩

/-- Claim C10: for `ui_tap`, `ui_type`, `ui_swipe` and `ui_describe_point`,
the handler succeeds exactly when the trimmed stderr of the external tool is
empty — a non-empty stderr becomes an error result even though `run` only
returns on a zero exit status — whereas `ui_describe_all` never inspects
stderr and succeeds with the trimmed stdout regardless. -/
theorem c10_stderr_policy (rawOut rawErr : String) :
    isOkB (ui_tap_handle (runResult rawOut rawErr)) = (jsTrim rawErr == "") ∧
    isOkB (ui_type_handle (runResult rawOut rawErr)) = (jsTrim rawErr == "") ∧
    isOkB (ui_swipe_handle (runResult rawOut rawErr)) = (jsTrim rawErr == "") ∧
    isOkB (ui_describe_point_handle (runResult rawOut rawErr)) = (jsTrim rawErr == "") ∧
    ui_describe_all_handle (runResult rawOut rawErr) = Except.ok (jsTrim rawOut) := by
  refine ⟨?_, ?_, ?_, ?_, rfl⟩
  · cases h : (jsTrim rawErr == "") <;> simp [ui_tap_handle, runResult, isOkB, h]
  · cases h : (jsTrim rawErr == "") <;> simp [ui_type_handle, runResult, isOkB, h]
  · cases h : (jsTrim rawErr == "") <;> simp [ui_swipe_handle, runResult, isOkB, h]
  · cases h : (jsTrim rawErr == "") <;>
      simp [ui_describe_point_handle, runResult, isOkB, h]

end IosSimMcp
